import Mathlib

/-!
Verification development for the claraG_direto messaging-funnel bot
(src/claraG_direto.py). The Python source is shallowly embedded: each
handler / job coroutine becomes a pure Lean function from its inputs
(job payload, environment variables, and an oracle describing the
gateway's responses) to its visible effects (a trace of gateway calls
and scheduling actions, plus an updated state). Exceptions raised by
the gateway are modelled as outcome constructors; an exception that the
Python code does not catch is modelled as an .error result.
-/

set_option maxRecDepth 4000

/-! ## Python truthiness helpers -/

/-- Python truthiness of an optional string (None and the empty string
are falsy). -/
def truthyS : Option String → Bool
  | none => false
  | some s => !(s == "")

/-- Python truthiness of an optional integer (None and 0 are falsy). -/
def truthyInt : Option Int → Bool
  | none => false
  | some n => !(n == 0)

/-- Models Python str-or-empty: the source writes
(_getenv(name) or "") so None collapses to the empty string. -/
def orEmpty : Option String → String
  | none => ""
  | some s => s

/-- Value of an optional integer, used when interpolating an id that the
control flow has already established to be present. -/
def orZero : Option Int → Int
  | none => 0
  | some n => n

/-! ## Python int() on strings

Models int(raw) on a str argument: optional surrounding whitespace, an
optional sign, then a nonempty digit run in which single underscores may
appear between digits.  Anything else raises ValueError, modelled as none. -/

/-- After the first digit: digits, with each underscore followed by a digit. -/
def pyDigitsCore : List Char → Bool
  | [] => true
  | c :: rest =>
      if c.isDigit then pyDigitsCore rest
      else if c == '_' then
        match rest with
        | [] => false
        | d :: _ => d.isDigit && pyDigitsCore rest
      else false

/-- A valid Python integer digit body: starts with a digit, underscores
only between digits. -/
def pyDigitsOk : List Char → Bool
  | [] => false
  | c :: rest => c.isDigit && pyDigitsCore rest

/-- Numeric value of a digit body, ignoring underscores. -/
def pyDigitsVal (cs : List Char) : Int :=
  (cs.filter Char.isDigit).foldl (fun n c => 10 * n + (Int.ofNat (c.toNat - 48))) 0

/-- Strip surrounding whitespace, as Python int() does on str input. -/
def pyStrip (cs : List Char) : List Char :=
  ((cs.dropWhile Char.isWhitespace).reverse.dropWhile Char.isWhitespace).reverse

/-- Models Python int(s) for a str s: some value on success, none when
int() would raise ValueError. -/
def pyInt (s : String) : Option Int :=
  match pyStrip s.data with
  | '+' :: rest => if pyDigitsOk rest then some (pyDigitsVal rest) else none
  | '-' :: rest => if pyDigitsOk rest then some (- pyDigitsVal rest) else none
  | cs => if pyDigitsOk cs then some (pyDigitsVal cs) else none

/-! ## Settings loading (_load_settings) -/

/-- Settings dataclass: bot token and numeric group id. -/
structure Settings where
  token : String
  group_id : Int
deriving DecidableEq, Repr

/-- The environment-variable surface read at startup. The two required
variables are explicit; every content-asset variable (BEATRIZ_COMBO_FOTO_n,
AUDIO_*, VIDEO_*) is behind the opaque-to-_load_settings field assets,
which _load_settings never reads. -/
structure Env where
  TELEGRAM_BOT_TOKEN : Option String
  ID_DO_GRUPO : Option String
  assets : String → Option String

/-- Replace the content-asset portion of the environment. -/
def Env.withAssets (e : Env) (f : String → Option String) : Env :=
  { e with assets := f }

/-- Embedding of _load_settings: collects missing required variables,
raises (".error") listing them; otherwise parses ID_DO_GRUPO with int()
and raises on failure; otherwise returns the Settings. -/
def _load_settings (e : Env) : Except String Settings :=
  let token := orEmpty e.TELEGRAM_BOT_TOKEN
  let raw_group_id := orEmpty e.ID_DO_GRUPO
  let missing := (if token == "" then ["TELEGRAM_BOT_TOKEN"] else []) ++
    (if raw_group_id == "" then ["ID_DO_GRUPO"] else [])
  if !missing.isEmpty then
    Except.error ("Variáveis faltando: " ++ String.intercalate ", " missing)
  else
    match pyInt raw_group_id with
    | none => Except.error "ID_DO_GRUPO deve ser numérico (ex.: -1001234567890)."
    | some group_id => Except.ok { token := token, group_id := group_id }

/-- Modelled from the spec sentence on the configuration surface: loading
succeeds iff the credential and the group identifier are present and the
group identifier parses as an integer, yielding exactly that token and
integer id; written from the spec's words for comparison with
_load_settings. -/
def loadSettingsSpec (e : Env) : Option Settings :=
  let token := orEmpty e.TELEGRAM_BOT_TOKEN
  let raw := orEmpty e.ID_DO_GRUPO
  if token = "" ∨ raw = "" then none
  else (pyInt raw).map fun g => { token := token, group_id := g }

/-! ## Gateway outcomes and the safe send helpers -/

/-- Outcome of one gateway send call.  errForbidden / errBadRequest are
the classifiable delivery failures (telegram.error Forbidden / BadRequest);
errOther is any other raised exception. -/
inductive SendOutcome where
  | ok (msgId : Nat)
  | errForbidden (desc : String)
  | errBadRequest (desc : String)
  | errOther
deriving DecidableEq, Repr

/-- A Forbidden or BadRequest failure, i.e. one caught by the
except (Forbidden, BadRequest) clauses of the safe helpers. -/
def classifiable : SendOutcome → Bool
  | .ok _ => false
  | .errForbidden _ => true
  | .errBadRequest _ => true
  | .errOther => false

/-- Result type of an embedded safe helper: .error () models an exception
propagating out of the helper; .ok none models a swallowed failure;
.ok (some m) models a delivered message. -/
abbrev SendResult := Except Unit (Option Nat)

/-- Embedding of _safe_send_message: returns the message on success,
swallows Forbidden/BadRequest (after the logging helper) returning None,
lets any other exception propagate. -/
def _safe_send_message (o : SendOutcome) : SendResult :=
  match o with
  | .ok m => .ok (some m)
  | .errForbidden _ => .ok none
  | .errBadRequest _ => .ok none
  | .errOther => .error ()

/-- Embedding of _safe_send_photo (same try/except shape as
_safe_send_message). -/
def _safe_send_photo (o : SendOutcome) : SendResult :=
  match o with
  | .ok m => .ok (some m)
  | .errForbidden _ => .ok none
  | .errBadRequest _ => .ok none
  | .errOther => .error ()

/-- Embedding of _safe_send_video. -/
def _safe_send_video (o : SendOutcome) : SendResult :=
  match o with
  | .ok m => .ok (some m)
  | .errForbidden _ => .ok none
  | .errBadRequest _ => .ok none
  | .errOther => .error ()

/-- Embedding of _safe_send_audio. -/
def _safe_send_audio (o : SendOutcome) : SendResult :=
  match o with
  | .ok m => .ok (some m)
  | .errForbidden _ => .ok none
  | .errBadRequest _ => .ok none
  | .errOther => .error ()

/-- Embedding of _safe_send_media_group. -/
def _safe_send_media_group (o : SendOutcome) : SendResult :=
  match o with
  | .ok m => .ok (some m)
  | .errForbidden _ => .ok none
  | .errBadRequest _ => .ok none
  | .errOther => .error ()

/-! ## Chat join request handler -/

/-- The chat_join_request payload: the chat id may be absent
(getattr(chat, "id", None) with chat possibly None). -/
structure ChatJoinRequest where
  chat_id : Option Int
  from_user_id : Int
deriving DecidableEq, Repr

/-- Outcome of the join_request.approve() gateway call. -/
inductive ApproveOutcome where
  | ok
  | exn (desc : String)
deriving DecidableEq, Repr

/-- Visible result of handle_chat_join_request. -/
structure JoinResult where
  approveCalled : Bool
  raised : Bool
deriving DecidableEq, Repr

/-- Embedding of handle_chat_join_request: returns without a gateway call
unless the join request is present and its chat id equals the configured
group id; the approve call's failure is caught and logged. -/
def handle_chat_join_request (group_id : Int) (jr : Option ChatJoinRequest)
    (approve : ApproveOutcome) : JoinResult :=
  match jr with
  | none => { approveCalled := false, raised := false }
  | some j =>
      if !(j.chat_id == some group_id) then
        { approveCalled := false, raised := false }
      else
        match approve with
        | .ok => { approveCalled := true, raised := false }
        | .exn _ => { approveCalled := true, raised := false }

/-! ## Voice delivery with fallback (_safe_send_voice_prefer) -/

/-- The voice argument: either a str content handle (file_id or URL) or a
non-str payload (raw bytes / stream). -/
inductive VoiceRef where
  | handle (s : String)
  | rawBytes
deriving DecidableEq, Repr

/-- Outcome of the bot.get_file call: a result object whose file_path
attribute may be absent, or any raised exception. -/
inductive GetFileOutcome where
  | ok (file_path : Option String)
  | exn
deriving DecidableEq, Repr

/-- Gateway responses for one _safe_send_voice_prefer run: the first
send_voice, get_file, the URL-retry send_voice, and send_audio.  A field
is consulted only if the control flow reaches that call. -/
structure VoiceGateway where
  voiceSend1 : SendOutcome
  get_file : GetFileOutcome
  voiceSend2 : SendOutcome
  audioSend : SendOutcome
deriving DecidableEq, Repr

/-- One gateway call recorded by _safe_send_voice_prefer. -/
inductive VCall where
  | send_voice_orig
  | get_file_call (h : String)
  | send_voice_url (url : String)
  | send_audio_call
deriving DecidableEq, Repr

/-- The direct-file URL built in the fallback branch: the api file URL
with the token and the file_path stripped of leading slashes. -/
def telegramFileUrl (token file_path : String) : String :=
  "https://api.telegram.org/file/bot" ++ token ++ "/" ++
    String.mk (file_path.data.dropWhile (fun c => c == '/'))

/-- Embedding of _safe_send_voice_prefer.  Level (a): send_voice with the
original reference; success returns, a non-classifiable exception
propagates.  On Forbidden/BadRequest, level (b): only for a str handle,
get_file resolves file_path; if truthy, one send_voice retry with the
built URL (all failures inside this block are swallowed by the outer
except Exception).  Level (c): send_audio with the original reference;
Forbidden/BadRequest is logged and yields None, other exceptions
propagate.  Returns the call trace and the result. -/
def _safe_send_voice_prefer (token : String) (voice : VoiceRef)
    (gw : VoiceGateway) : List VCall × SendResult :=
  match gw.voiceSend1 with
  | .ok m => ([.send_voice_orig], .ok (some m))
  | .errOther => ([.send_voice_orig], .error ())
  | _ =>
    let bStep : List VCall × Option Nat :=
      match voice with
      | .rawBytes => ([], none)
      | .handle h =>
        match gw.get_file with
        | .exn => ([.get_file_call h], none)
        | .ok fp =>
          if truthyS fp then
            let url := telegramFileUrl token (orEmpty fp)
            match gw.voiceSend2 with
            | .ok m => ([.get_file_call h, .send_voice_url url], some m)
            | _ => ([.get_file_call h, .send_voice_url url], none)
          else ([.get_file_call h], none)
    match bStep with
    | (tb, some m) => (.send_voice_orig :: tb, .ok (some m))
    | (tb, none) =>
      match gw.audioSend with
      | .ok m => (.send_voice_orig :: tb ++ [.send_audio_call], .ok (some m))
      | .errOther => (.send_voice_orig :: tb ++ [.send_audio_call], .error ())
      | _ => (.send_voice_orig :: tb ++ [.send_audio_call], .ok none)

/-- The url-retry of level (b) happens exactly when level (a) failed
classifiably, the reference is a str handle, and get_file resolved a
truthy file_path. -/
def urlRetryTaken (voice : VoiceRef) (gw : VoiceGateway) : Bool :=
  classifiable gw.voiceSend1 &&
    (match voice with
     | .rawBytes => false
     | .handle _ =>
       match gw.get_file with
       | .exn => false
       | .ok fp => truthyS fp)

/-- The url-retry was taken and delivered the message. -/
def urlRetryDelivered (voice : VoiceRef) (gw : VoiceGateway) : Bool :=
  urlRetryTaken voice gw &&
    (match gw.voiceSend2 with
     | .ok _ => true
     | _ => false)

/-! ## Content environment and job payloads -/

/-- The content-asset environment variables read at module load
(BEATRIZ_COMBO_FOTO_1..10, BEATRIZ_COMBO_VIDEO_1..4, the AUDIO_* clips and
the VIP preview video).  None models an unset variable. -/
structure ContentEnv where
  BEATRIZ_COMBO_FOTO_1 : Option String
  BEATRIZ_COMBO_FOTO_2 : Option String
  BEATRIZ_COMBO_FOTO_3 : Option String
  BEATRIZ_COMBO_FOTO_4 : Option String
  BEATRIZ_COMBO_FOTO_5 : Option String
  BEATRIZ_COMBO_FOTO_6 : Option String
  BEATRIZ_COMBO_FOTO_7 : Option String
  BEATRIZ_COMBO_FOTO_8 : Option String
  BEATRIZ_COMBO_FOTO_9 : Option String
  BEATRIZ_COMBO_FOTO_10 : Option String
  BEATRIZ_COMBO_VIDEO_1 : Option String
  BEATRIZ_COMBO_VIDEO_2 : Option String
  BEATRIZ_COMBO_VIDEO_3 : Option String
  BEATRIZ_COMBO_VIDEO_4 : Option String
  AUDIO_ENTREGA_COMBO : Option String
  AUDIO_POS_ENTREGA_COMBO : Option String
  AUDIO_OFERTANDO_UPSELL : Option String
  VIDEO_PREVIA_VIP : Option String
  AUDIO_REMARKETING_UPSELL : Option String
  AUDIO_REMARKETING_UPSELL_2 : Option String
deriving DecidableEq, Repr

/-- Delay / retry constants from the source. -/
def AUTO_REPLY_DELAY_SECONDS : Nat := 30

/-- VIP offer delay constant. -/
def VIP_OFFER_DELAY_SECONDS : Nat := 180

/-- Membership polling interval constant. -/
def GROUP_CHECK_INTERVAL_SECONDS : Nat := 60

/-- Maximum membership polling attempts. -/
def GROUP_CHECK_MAX_ATTEMPTS : Nat := 5

/-- Message sent when membership is confirmed. -/
def GROUP_APPROVED_MESSAGE : String := "Te aceitei no grupo, espero que goste"

/-- VIP purchase links. -/
def VIP_LINK_1_MES : String := "https://global.tribopay.com.br/jvvo3"

/-- Six-month VIP link. -/
def VIP_LINK_6_MESES : String := "https://global.tribopay.com.br/kgwjs"

/-- One-year VIP link. -/
def VIP_LINK_1_ANO : String := "https://global.tribopay.com.br/1fhtd"

/-- Remarketing call-to-action link. -/
def EU_QUERO_LINK : String := "https://global.tribopay.com.br/zjvj6"

/-- The job.data dict passed between funnel jobs: chat_id, user_id,
business_connection_id. -/
structure JobData where
  chat_id : Option Int
  user_id : Option Int
  business_connection_id : Option String
deriving DecidableEq, Repr

/-- The group-check job.data dict: the funnel triple plus the attempt
counter. -/
structure GCData where
  chat_id : Option Int
  user_id : Option Int
  business_connection_id : Option String
  attempt : Nat
deriving DecidableEq, Repr

/-- A media item of a send_media_group call (InputMediaPhoto /
InputMediaVideo wrapper). -/
inductive InputMedia where
  | photo (media : String)
  | video (media : String)
deriving DecidableEq, Repr

/-- A gateway / scheduler action performed by a funnel job coroutine.
sendMessage carries the optional inline keyboard as (label, url) rows. -/
inductive BotCall where
  | sendMessage (text : String) (markup : Option (List (String × String)))
  | sendVoicePrefer (voice : String)
  | sendPhoto (photo : String)
  | sendVideo (video : String)
  | sendMediaGroup (media : List InputMedia)
  | scheduleUpsell (whenS : Nat) (name : String) (d : JobData)
  | scheduleGroupCheck (interval first : Nat) (name : String) (g : GCData)
deriving DecidableEq, Repr

/-- The photos_ids list built in _combo_delivery_beatriz_job. -/
def photos_ids (e : ContentEnv) : List (Option String) :=
  [e.BEATRIZ_COMBO_FOTO_1, e.BEATRIZ_COMBO_FOTO_2, e.BEATRIZ_COMBO_FOTO_3,
   e.BEATRIZ_COMBO_FOTO_4, e.BEATRIZ_COMBO_FOTO_5, e.BEATRIZ_COMBO_FOTO_6,
   e.BEATRIZ_COMBO_FOTO_7, e.BEATRIZ_COMBO_FOTO_8, e.BEATRIZ_COMBO_FOTO_9,
   e.BEATRIZ_COMBO_FOTO_10]

/-- The videos_ids list built in _combo_delivery_beatriz_job. -/
def videos_ids (e : ContentEnv) : List (Option String) :=
  [e.BEATRIZ_COMBO_VIDEO_1, e.BEATRIZ_COMBO_VIDEO_2, e.BEATRIZ_COMBO_VIDEO_3,
   e.BEATRIZ_COMBO_VIDEO_4]

/-- The list comprehension [pid for pid in ids if pid]: keep the truthy
entries as plain strings. -/
def truthyList (ids : List (Option String)) : List String :=
  ids.filterMap fun o =>
    match o with
    | some s => if s == "" then none else some s
    | none => none

/-- The configured photos of the combo delivery. -/
def combo_photos (e : ContentEnv) : List String := truthyList (photos_ids e)

/-- The configured videos of the combo delivery. -/
def combo_videos (e : ContentEnv) : List String := truthyList (videos_ids e)

/-- Embedding of _combo_delivery_beatriz_job as its trace of gateway and
scheduler calls.  The job returns early on a falsy chat_id; otherwise the
sequence of calls does not depend on gateway outcomes because every send
goes through a swallowing safe helper. -/
def _combo_delivery_beatriz_job (e : ContentEnv) (d : JobData)
    (hasJobQueue : Bool) : List BotCall :=
  if !truthyInt d.chat_id then []
  else
    let photos := combo_photos e
    let videos := combo_videos e
    [BotCall.sendMessage "Hi, sorry for the delay. I'll send everything" none]
    ++ (if truthyS e.AUDIO_ENTREGA_COMBO then
          [BotCall.sendVoicePrefer (orEmpty e.AUDIO_ENTREGA_COMBO)] else [])
    ++ (if 2 ≤ photos.length then
          [BotCall.sendMediaGroup (photos.map InputMedia.photo)]
        else if photos.length == 1 then
          [BotCall.sendPhoto photos.headI]
        else [])
    ++ (if 2 ≤ videos.length then
          [BotCall.sendMediaGroup (videos.map InputMedia.video)]
        else if videos.length == 1 then
          [BotCall.sendVideo videos.headI]
        else [])
    ++ (if truthyS e.AUDIO_POS_ENTREGA_COMBO then
          [BotCall.sendVoicePrefer (orEmpty e.AUDIO_POS_ENTREGA_COMBO)]
        else
          [BotCall.sendMessage "Depois que olhar, me fala se gostou, tá bom? 🤍" none])
    ++ (if hasJobQueue then
          [BotCall.scheduleUpsell VIP_OFFER_DELAY_SECONDS
            ("upsell:beatriz:" ++ toString (orZero d.chat_id)) d]
        else [])

/-! ## Upsell job -/

/-- The upsell_text literal of _upsell_sequence_job (adjacent string
literals concatenated). -/
def UPSELL_TEXT : String :=
  "Look at this little preview I sent you 🥰\n" ++
  "Babe, what you really want is inside my VIP, look at everything you can see:\n\n" ++
  "💎 Videos and photos just the way you like them...\n" ++
  "💎 Exclusive videos for you, making you cum just the two of us\n" ++
  "💎 My personal contact\n" ++
  "💎 I always post new things\n" ++
  "💎 And much more my dear...\n\n" ++
  "Now choose a VIP option so you can see me in the best way and cumming for me 💦"

/-- The three-row VIP inline keyboard. -/
def vipKeyboard : List (String × String) :=
  [("[$10]1 MONTH🔥", VIP_LINK_1_MES),
   ("[$17]6 MONTHS+SURPRISE👀🔥", VIP_LINK_6_MESES),
   ("[$20]1 YEAR+EXCLUSIVE VIDEO+🎁", VIP_LINK_1_ANO)]

/-- Embedding of _upsell_sequence_job as its trace: early return on falsy
chat_id; optional upsell voice and preview video; the upsell text; the
keyboard message; then, only if a job queue is available AND user_id is
truthy, the repeating group-check job is scheduled with attempt 0. -/
def _upsell_sequence_job (e : ContentEnv) (d : JobData)
    (hasJobQueue : Bool) : List BotCall :=
  if !truthyInt d.chat_id then []
  else
    (if truthyS e.AUDIO_OFERTANDO_UPSELL then
       [BotCall.sendVoicePrefer (orEmpty e.AUDIO_OFERTANDO_UPSELL)] else [])
    ++ (if truthyS e.VIDEO_PREVIA_VIP then
          [BotCall.sendVideo (orEmpty e.VIDEO_PREVIA_VIP)] else [])
    ++ [BotCall.sendMessage UPSELL_TEXT none]
    ++ [BotCall.sendMessage "Choose your VIP below 👇" (some vipKeyboard)]
    ++ (if hasJobQueue && truthyInt d.user_id then
          [BotCall.scheduleGroupCheck GROUP_CHECK_INTERVAL_SECONDS
            GROUP_CHECK_INTERVAL_SECONDS
            ("group_check:" ++ toString (orZero d.chat_id))
            { chat_id := d.chat_id, user_id := d.user_id,
              business_connection_id := d.business_connection_id,
              attempt := 0 }]
        else [])

/-! ## Membership polling (_group_check_job) -/

/-- Outcome of the bot.get_chat_member query in one invocation: a
resolved member object (its status attribute, possibly absent, and its
is_member flag), or a raised Forbidden / BadRequest / other exception. -/
inductive MemberOutcome where
  | res (status : Option String) (is_member : Bool)
  | forbidden
  | badRequest
  | otherExn
deriving DecidableEq, Repr

/-- The status value is member, administrator or creator. -/
def statusIsMemberSet : Option String → Bool
  | none => false
  | some s => s == "member" || s == "administrator" || s == "creator"

/-- The is_member classification of one resolved / raised query result,
as computed by the try/except around get_chat_member (Forbidden is the
early-return path and never reaches this classification). -/
def classifyMember : MemberOutcome → Bool
  | .res status flag => statusIsMemberSet status || flag
  | _ => false

/-- Visible result of one _group_check_job invocation. -/
structure GCResult where
  data : GCData
  removed : Bool
  checked : Bool
  sentApproved : Bool
  sentRemarketing : Bool
deriving DecidableEq, Repr

/-- Embedding of one _group_check_job invocation.  The attempt counter is
incremented and written back to job.data first.  Malformed payload (falsy
chat_id or user_id) self-removes without a query.  Then get_chat_member
runs (checked): Forbidden returns immediately (no removal, no sends);
otherwise the result is classified, a member gets the approval message
and removal, a non-member at attempt ≥ MAX removes the job and triggers
remarketing, and otherwise nothing further happens. -/
def _group_check_job (d : GCData) (m : MemberOutcome) : GCResult :=
  let attempt := d.attempt + 1
  let d2 : GCData := { d with attempt := attempt }
  if !(truthyInt d2.chat_id && truthyInt d2.user_id) then
    { data := d2, removed := true, checked := false,
      sentApproved := false, sentRemarketing := false }
  else
    match m with
    | .forbidden =>
        { data := d2, removed := false, checked := true,
          sentApproved := false, sentRemarketing := false }
    | m =>
      if classifyMember m then
        { data := d2, removed := true, checked := true,
          sentApproved := true, sentRemarketing := false }
      else if GROUP_CHECK_MAX_ATTEMPTS ≤ attempt then
        { data := d2, removed := true, checked := true,
          sentApproved := false, sentRemarketing := true }
      else
        { data := d2, removed := false, checked := true,
          sentApproved := false, sentRemarketing := false }

/-- The repeating-job run: the scheduler keeps invoking _group_check_job
every interval, threading job.data, until the job calls schedule_removal;
fuel bounds how many invocations we observe.  oracle i is the gateway's
response to the query of invocation i (0-based). -/
def gcTraceAux (oracle : Nat → MemberOutcome) (d : GCData) (i : Nat) :
    Nat → List GCResult
  | 0 => []
  | fuel + 1 =>
      let r := _group_check_job d (oracle i)
      if r.removed then [r]
      else r :: gcTraceAux oracle r.data (i + 1) fuel

/-- Run of the polling loop from freshly scheduled data. -/
def gcTrace (oracle : Nat → MemberOutcome) (d : GCData) (fuel : Nat) :
    List GCResult :=
  gcTraceAux oracle d 0 fuel

/-- Well-formed polling payload: chat_id and user_id truthy (exactly what
_upsell_sequence_job guarantees when it schedules the job). -/
def gcGood (d : GCData) : Bool :=
  truthyInt d.chat_id && truthyInt d.user_id

/-! ## Inbound message handler (handle_text_message) -/

/-- A Telegram user as seen by the handler. -/
structure TUser where
  id : Int
  is_bot : Bool
deriving DecidableEq, Repr

/-- The effective_message fields the handler reads. -/
structure TMessage where
  from_user : Option TUser
  business_connection_id : Option String
  message_id : Nat
deriving DecidableEq, Repr

/-- The effective_chat fields the handler reads; both the type attribute
and the id attribute are read defensively with getattr defaults. -/
structure TChat where
  ctype : Option String
  id : Option Int
deriving DecidableEq, Repr

/-- The update fields the handler reads. -/
structure TUpdate where
  message : Option TMessage
  chat : Option TChat
  user : Option TUser
deriving DecidableEq, Repr

/-- Mutable dispatch state: per-chat chat_data (the combo_dispatched flag
and the stored business_connection_id, keyed by chat id as python-telegram-
bot keys chat_data) plus the process-wide COMBO_DISPATCHED_CHATS set. -/
structure BotState where
  chat_data_dispatched : Int → Bool
  chat_data_bcid : Int → Option String
  combo_dispatched_chats : List Int

/-- A visible action of handle_text_message. -/
inductive HAction where
  | sleep (seconds : Nat)
  | replyText (text : String)
  | scheduleComboJob (whenS : Nat) (name : String) (d : JobData)
deriving DecidableEq, Repr

/-- Embedding of handle_text_message.  Guards in source order: message
present, chat present, sender not a bot, chat type private, chat id not
None, dispatch flag clear in chat_data and in COMBO_DISPATCHED_CHATS.
Admission sets both flags, stores a truthy business_connection_id, then
either (no job queue) sleeps AUTO_REPLY_DELAY_SECONDS and sends the
apology reply inline, or schedules the combo delivery job. -/
def handle_text_message (st : BotState) (u : TUpdate) (hasJobQueue : Bool) :
    BotState × List HAction :=
  match u.message with
  | none => (st, [])
  | some msg =>
    match u.chat with
    | none => (st, [])
    | some chat =>
      if (match msg.from_user with
          | some fu => fu.is_bot
          | none => false) then (st, [])
      else
        if !(chat.ctype == some "private") then (st, [])
        else
          match chat.id with
          | none => (st, [])
          | some chat_id =>
            let already := st.chat_data_dispatched chat_id ||
              st.combo_dispatched_chats.contains chat_id
            if already then (st, [])
            else
              let st1 : BotState :=
                { st with
                  chat_data_dispatched := fun c =>
                    if c == chat_id then true else st.chat_data_dispatched c,
                  combo_dispatched_chats := chat_id :: st.combo_dispatched_chats }
              let bcid := msg.business_connection_id
              let st2 : BotState :=
                if truthyS bcid then
                  { st1 with chat_data_bcid := fun c =>
                      if c == chat_id then bcid else st1.chat_data_bcid c }
                else st1
              if !hasJobQueue then
                (st2, [HAction.sleep AUTO_REPLY_DELAY_SECONDS,
                       HAction.replyText "Hi, sorry for the delay. I'll send everything."])
              else
                (st2, [HAction.scheduleComboJob AUTO_REPLY_DELAY_SECONDS
                  ("auto_reply:beatriz:" ++ toString chat_id ++ ":" ++
                    toString msg.message_id)
                  { chat_id := some chat_id,
                    user_id := (u.user).map TUser.id,
                    business_connection_id := bcid }])

/-- Sequential processing of a list of inbound updates, each with its own
job-queue availability, accumulating the handler actions. -/
def runHandler (st : BotState) : List (TUpdate × Bool) → BotState × List HAction
  | [] => (st, [])
  | (u, jq) :: rest =>
      let p := handle_text_message st u jq
      let q := runHandler p.1 rest
      (q.1, p.2 ++ q.2)

/-- An action that schedules the combo delivery job. -/
def isComboSchedule : HAction → Bool
  | .scheduleComboJob _ _ _ => true
  | _ => false

/-- The dispatch flag for chat c is set, in either store. -/
def dispatchedB (st : BotState) (c : Int) : Bool :=
  st.chat_data_dispatched c || st.combo_dispatched_chats.contains c

/-- A private-chat non-bot text message for chat c: the shape of update
that the handler admits. -/
def goodPrivateMsg (u : TUpdate) (c : Int) : Bool :=
  match u.message, u.chat with
  | some msg, some chat =>
      (match msg.from_user with
       | some fu => !fu.is_bot
       | none => true) &&
      (chat.ctype == some "private") && (chat.id == some c)
  | _, _ => false

/-! ## Trace predicates used by the theorems -/

/-- A media-group send whose media are photos (groups built by the combo
job are homogeneous and nonempty, so the head identifies the batch). -/
def isPhotoGroupSend : BotCall → Bool
  | .sendMediaGroup (InputMedia.photo _ :: _) => true
  | _ => false

/-- A single-photo send. -/
def isSinglePhotoSend : BotCall → Bool
  | .sendPhoto _ => true
  | _ => false

/-- A media-group send whose media are videos. -/
def isVideoGroupSend : BotCall → Bool
  | .sendMediaGroup (InputMedia.video _ :: _) => true
  | _ => false

/-- A single-video send. -/
def isSingleVideoSend : BotCall → Bool
  | .sendVideo _ => true
  | _ => false

/-- A scheduling of the repeating membership polling job. -/
def isGroupCheckSchedule : BotCall → Bool
  | .scheduleGroupCheck _ _ _ _ => true
  | _ => false

/-- The original-reference native voice send of the fallback chain. -/
def isVoiceOrigCall : VCall → Bool
  | .send_voice_orig => true
  | _ => false

/-- The URL-retry native voice send of the fallback chain. -/
def isVoiceUrlCall : VCall → Bool
  | .send_voice_url _ => true
  | _ => false

/-- The generic audio-attachment send of the fallback chain. -/
def isAudioCall : VCall → Bool
  | .send_audio_call => true
  | _ => false

/-- Level (c) of the fallback chain is reached: level (a) failed with a
classifiable error and the url-retry did not deliver. -/
def audioReached (voice : VoiceRef) (gw : VoiceGateway) : Bool :=
  classifiable gw.voiceSend1 && !urlRetryDelivered voice gw

/-- A concrete fresh dispatch state: no chat dispatched, no stored
business connection, empty COMBO_DISPATCHED_CHATS. -/
def exampleState : BotState :=
  { chat_data_dispatched := fun _ => false,
    chat_data_bcid := fun _ => none,
    combo_dispatched_chats := [] }

/-- A concrete inbound private-chat message from a human sender in
chat 5. -/
def exampleUpdate : TUpdate :=
  { message := some
      { from_user := some { id := 6, is_bot := false },
        business_connection_id := none,
        message_id := 100 },
    chat := some { ctype := some "private", id := some 5 },
    user := some { id := 6, is_bot := false } }

/-- A second, later inbound message in the same chat 5. -/
def exampleUpdate2 : TUpdate :=
  { message := some
      { from_user := some { id := 6, is_bot := false },
        business_connection_id := none,
        message_id := 101 },
    chat := some { ctype := some "private", id := some 5 },
    user := some { id := 6, is_bot := false } }

/-! # Theorems -/

/-- C8: startup configuration loading fails iff the bot credential is
absent, the group identifier is absent, or the group identifier does not
parse as an integer; otherwise it returns exactly that token and integer
group id (the refinement loadSettingsSpec states the claim's words); and
the content-asset portion of the environment never influences the result,
so a missing asset never causes a startup failure. -/
theorem C8_load_settings_ok_iff (e : Env) (f : String → Option String) :
    (_load_settings e).toOption = loadSettingsSpec e ∧
    _load_settings (e.withAssets f) = _load_settings e := by
  constructor
  · simp only [_load_settings, loadSettingsSpec]
    by_cases h1 : orEmpty e.TELEGRAM_BOT_TOKEN = "" <;>
    by_cases h2 : orEmpty e.ID_DO_GRUPO = "" <;>
    cases hp : pyInt (orEmpty e.ID_DO_GRUPO) <;>
    simp [h1, h2, hp, Except.toOption]
  · rfl

/-- Witness for C8 at a concrete environment: loading succeeds with the
given token and parsed group id, independently of the assets. -/
theorem C8_load_settings_witness :
    (_load_settings
        { TELEGRAM_BOT_TOKEN := some "tok123",
          ID_DO_GRUPO := some "-1001234567890",
          assets := fun _ => none }).toOption =
      loadSettingsSpec
        { TELEGRAM_BOT_TOKEN := some "tok123",
          ID_DO_GRUPO := some "-1001234567890",
          assets := fun _ => none } ∧
    _load_settings
        (Env.withAssets
          { TELEGRAM_BOT_TOKEN := some "tok123",
            ID_DO_GRUPO := some "-1001234567890",
            assets := fun _ => none }
          (fun _ => some "asset")) =
      _load_settings
        { TELEGRAM_BOT_TOKEN := some "tok123",
          ID_DO_GRUPO := some "-1001234567890",
          assets := fun _ => none } :=
  C8_load_settings_ok_iff _ _

/-- C6: every delivery-layer safe send helper (text, photo, video, audio,
media-group) swallows a classifiable failure (Forbidden or BadRequest):
it returns None and propagates no exception. -/
theorem C6_safe_send_swallows_classifiable (o : SendOutcome)
    (h : classifiable o = true) :
    _safe_send_message o = .ok none ∧
    _safe_send_photo o = .ok none ∧
    _safe_send_video o = .ok none ∧
    _safe_send_audio o = .ok none ∧
    _safe_send_media_group o = .ok none := by
  cases o <;> simp_all [classifiable, _safe_send_message, _safe_send_photo,
    _safe_send_video, _safe_send_audio, _safe_send_media_group]

/-- Witness for C6 at the Forbidden outcome a blocked recipient raises. -/
theorem C6_safe_send_witness :
    _safe_send_message (.errForbidden "bot was blocked by the user") = .ok none ∧
    _safe_send_photo (.errForbidden "bot was blocked by the user") = .ok none ∧
    _safe_send_video (.errForbidden "bot was blocked by the user") = .ok none ∧
    _safe_send_audio (.errForbidden "bot was blocked by the user") = .ok none ∧
    _safe_send_media_group (.errForbidden "bot was blocked by the user") = .ok none :=
  C6_safe_send_swallows_classifiable _ (by decide)

/-- C10: a chat-join-request is approved (one approve call) exactly when
the request is present and its chat id equals the configured group id;
any other request returns without a gateway call, and an approve failure
never propagates. -/
theorem C10_join_request_approval (gid : Int) (jr : Option ChatJoinRequest)
    (a : ApproveOutcome) :
    (handle_chat_join_request gid jr a).raised = false ∧
    (handle_chat_join_request gid jr a).approveCalled =
      (match jr with
       | some j => j.chat_id == some gid
       | none => false) := by
  match jr with
  | none => simp [handle_chat_join_request]
  | some j =>
      cases a <;> by_cases hc : j.chat_id = some gid <;>
        simp_all [handle_chat_join_request]

/-- Every _group_check_job invocation writes back exactly one increment of
the attempt counter. -/
theorem gc_data_eq (d : GCData) (m : MemberOutcome) :
    (_group_check_job d m).data = { d with attempt := d.attempt + 1 } := by
  cases m <;> simp only [_group_check_job] <;> split_ifs <;> rfl

/-- Payload well-formedness is preserved across an invocation. -/
theorem gc_good_preserved (d : GCData) (m : MemberOutcome) :
    gcGood (_group_check_job d m).data = gcGood d := by
  rw [gc_data_eq]
  rfl

/-- On a well-formed payload every invocation performs the membership
query (also when the query raises Forbidden: the call was made). -/
theorem gc_checked (d : GCData) (m : MemberOutcome) (h : gcGood d = true) :
    (_group_check_job d m).checked = true := by
  have h' : (truthyInt d.chat_id && truthyInt d.user_id) = true := h
  cases m <;> simp [_group_check_job, h'] <;> split_ifs <;> rfl

/-- If a well-formed invocation with a resolving (non-Forbidden) query
does not remove the job, the written attempt counter is at most 4. -/
theorem gc_not_removed_bound (d : GCData) (m : MemberOutcome)
    (h : gcGood d = true) (hm : m ≠ .forbidden)
    (hr : (_group_check_job d m).removed = false) :
    d.attempt + 1 ≤ 4 := by
  have h' : (truthyInt d.chat_id && truthyInt d.user_id) = true := h
  cases m with
  | forbidden => exact absurd rfl hm
  | res status flag =>
      simp [_group_check_job, h'] at hr
      by_cases hc : classifyMember (.res status flag) = true
      · simp [hc] at hr
      · simp [hc] at hr
        by_cases h5 : GROUP_CHECK_MAX_ATTEMPTS ≤ d.attempt + 1
        · simp [h5] at hr
        · simp [GROUP_CHECK_MAX_ATTEMPTS] at h5
          omega
  | badRequest =>
      simp [_group_check_job, h', classifyMember] at hr
      by_cases h5 : GROUP_CHECK_MAX_ATTEMPTS ≤ d.attempt + 1
      · simp [h5] at hr
      · simp [GROUP_CHECK_MAX_ATTEMPTS] at h5
        omega
  | otherExn =>
      simp [_group_check_job, h', classifyMember] at hr
      by_cases h5 : GROUP_CHECK_MAX_ATTEMPTS ≤ d.attempt + 1
      · simp [h5] at hr
      · simp [GROUP_CHECK_MAX_ATTEMPTS] at h5
        omega

/-- C3: each polling invocation on a well-formed payload counts the
attempt, performs the query, and classifies it exactly as the claim
states: member iff the status is member/administrator/creator or the
is_member flag is set (classifyMember); a member gets the approval send
and removal; a resolvable non-member outcome (including BadRequest)
proceeds to the max-attempts check; Forbidden returns immediately after
the increment with no send, no removal and no scheduling change. -/
theorem C3_membership_classification (d : GCData) (m : MemberOutcome)
    (h : gcGood d = true) :
    ((_group_check_job d m).data.attempt = d.attempt + 1) ∧
    ((_group_check_job d m).checked = true) ∧
    (m ≠ .forbidden → (_group_check_job d m).sentApproved = classifyMember m) ∧
    (m ≠ .forbidden → classifyMember m = true →
      (_group_check_job d m).removed = true ∧
      (_group_check_job d m).sentRemarketing = false) ∧
    (m ≠ .forbidden → classifyMember m = false →
      (_group_check_job d m).removed =
        decide (GROUP_CHECK_MAX_ATTEMPTS ≤ d.attempt + 1) ∧
      (_group_check_job d m).sentRemarketing =
        decide (GROUP_CHECK_MAX_ATTEMPTS ≤ d.attempt + 1)) ∧
    (m = .forbidden →
      _group_check_job d m =
        { data := { d with attempt := d.attempt + 1 }, removed := false,
          checked := true, sentApproved := false, sentRemarketing := false }) := by
  have h' : (truthyInt d.chat_id && truthyInt d.user_id) = true := h
  refine ⟨by rw [gc_data_eq], gc_checked d m h, ?_, ?_, ?_, ?_⟩
  · intro hm
    cases m with
    | forbidden => exact absurd rfl hm
    | res status flag =>
        by_cases hc : classifyMember (.res status flag) = true
        · simp [_group_check_job, h', hc]
        · simp only [Bool.not_eq_true] at hc
          simp only [_group_check_job, h', Bool.and_self, Bool.not_true,
            Bool.false_eq_true, if_false, hc]
          split <;> simp [hc]
    | badRequest =>
        simp only [_group_check_job, h', Bool.and_self, Bool.not_true,
          Bool.false_eq_true, if_false, classifyMember]
        split <;> rfl
    | otherExn =>
        simp only [_group_check_job, h', Bool.and_self, Bool.not_true,
          Bool.false_eq_true, if_false, classifyMember]
        split <;> rfl
  · intro hm hc
    cases m with
    | forbidden => exact absurd rfl hm
    | res status flag => simp_all [_group_check_job, h']
    | badRequest => simp_all [classifyMember]
    | otherExn => simp_all [classifyMember]
  · intro hm hc
    cases m with
    | forbidden => exact absurd rfl hm
    | res status flag =>
        simp only [_group_check_job, h', Bool.and_self, Bool.not_true,
          Bool.false_eq_true, if_false, hc]
        split <;> rename_i h5 <;> simp [h5]
    | badRequest =>
        simp only [_group_check_job, h', Bool.and_self, Bool.not_true,
          Bool.false_eq_true, if_false, classifyMember]
        split <;> rename_i h5 <;> simp [h5]
    | otherExn =>
        simp only [_group_check_job, h', Bool.and_self, Bool.not_true,
          Bool.false_eq_true, if_false, classifyMember]
        split <;> rename_i h5 <;> simp [h5]
  · intro hm
    subst hm
    simp [_group_check_job, h']

/-- Witness for C3: a concrete administrator-status invocation is
classified as member, the counter is incremented, and the approval path
removes the job without remarketing. -/
theorem C3_membership_classification_witness :
    (_group_check_job
        { chat_id := some 10, user_id := some 20,
          business_connection_id := none, attempt := 0 }
        (.res (some "administrator") false)).data.attempt = 1 ∧
    (_group_check_job
        { chat_id := some 10, user_id := some 20,
          business_connection_id := none, attempt := 0 }
        (.res (some "administrator") false)).sentApproved =
      classifyMember (.res (some "administrator") false) ∧
    (_group_check_job
        { chat_id := some 10, user_id := some 20,
          business_connection_id := none, attempt := 0 }
        (.res (some "administrator") false)).removed = true := by
  have h := C3_membership_classification
    { chat_id := some 10, user_id := some 20,
      business_connection_id := none, attempt := 0 }
    (.res (some "administrator") false) (by decide)
  exact ⟨h.1, h.2.2.1 (by simp) , (h.2.2.2.1 (by simp) (by decide)).1⟩

/-- C5: the voice delivery fallback chain in _safe_send_voice_prefer:
exactly one native send with the original reference, heading the call
trace; the URL-based retry happens exactly once iff the native send
failed classifiably, the reference is a durable (str) handle and
get_file resolved a truthy file path; the audio level is reached (exactly
one send_audio call, last in the trace) iff the native send failed
classifiably and the retry did not deliver; and on the audio level the
overall result is exactly the audio send result, so a successful audio
send delivers the content and a classifiable audio failure yields an
empty result instead of raising. -/
theorem C5_voice_fallback_chain (token : String) (voice : VoiceRef)
    (gw : VoiceGateway) :
    ((_safe_send_voice_prefer token voice gw).1.countP isVoiceOrigCall = 1) ∧
    ((_safe_send_voice_prefer token voice gw).1.head? =
      some VCall.send_voice_orig) ∧
    ((_safe_send_voice_prefer token voice gw).1.countP isVoiceUrlCall =
      if urlRetryTaken voice gw then 1 else 0) ∧
    ((_safe_send_voice_prefer token voice gw).1.countP isAudioCall =
      if audioReached voice gw then 1 else 0) ∧
    (audioReached voice gw = true →
      (_safe_send_voice_prefer token voice gw).1.getLast? =
        some VCall.send_audio_call) ∧
    (audioReached voice gw = true →
      (_safe_send_voice_prefer token voice gw).2 =
        _safe_send_audio gw.audioSend) := by
  obtain ⟨v1, gf, v2, au⟩ := gw
  cases v1 with
  | ok m =>
      simp [_safe_send_voice_prefer, urlRetryTaken, urlRetryDelivered,
        audioReached, classifiable, isVoiceOrigCall, isVoiceUrlCall,
        isAudioCall]
  | errOther =>
      simp [_safe_send_voice_prefer, urlRetryTaken, urlRetryDelivered,
        audioReached, classifiable, isVoiceOrigCall, isVoiceUrlCall,
        isAudioCall]
  | errForbidden d1 =>
      cases voice with
      | rawBytes =>
          cases au <;>
            simp [_safe_send_voice_prefer, urlRetryTaken, urlRetryDelivered,
              audioReached, classifiable, isVoiceOrigCall, isVoiceUrlCall,
              isAudioCall, _safe_send_audio]
      | handle hstr =>
          cases gf with
          | exn =>
              cases au <;>
                simp [_safe_send_voice_prefer, urlRetryTaken, urlRetryDelivered,
                  audioReached, classifiable, isVoiceOrigCall, isVoiceUrlCall,
                  isAudioCall, _safe_send_audio]
          | ok fp =>
              cases fp with
              | none =>
                  cases au <;>
                    simp [_safe_send_voice_prefer, urlRetryTaken,
                      urlRetryDelivered, audioReached, classifiable,
                      isVoiceOrigCall, isVoiceUrlCall, isAudioCall,
                      _safe_send_audio, truthyS]
              | some s =>
                  by_cases hs0 : s = ""
                  · cases au <;>
                      simp [_safe_send_voice_prefer, urlRetryTaken,
                        urlRetryDelivered, audioReached, classifiable,
                        isVoiceOrigCall, isVoiceUrlCall, isAudioCall,
                        _safe_send_audio, truthyS, hs0]
                  · cases v2 <;> cases au <;>
                      simp [_safe_send_voice_prefer, urlRetryTaken,
                        urlRetryDelivered, audioReached, classifiable,
                        isVoiceOrigCall, isVoiceUrlCall, isAudioCall,
                        _safe_send_audio, truthyS, hs0]
  | errBadRequest d1 =>
      cases voice with
      | rawBytes =>
          cases au <;>
            simp [_safe_send_voice_prefer, urlRetryTaken, urlRetryDelivered,
              audioReached, classifiable, isVoiceOrigCall, isVoiceUrlCall,
              isAudioCall, _safe_send_audio]
      | handle hstr =>
          cases gf with
          | exn =>
              cases au <;>
                simp [_safe_send_voice_prefer, urlRetryTaken, urlRetryDelivered,
                  audioReached, classifiable, isVoiceOrigCall, isVoiceUrlCall,
                  isAudioCall, _safe_send_audio]
          | ok fp =>
              cases fp with
              | none =>
                  cases au <;>
                    simp [_safe_send_voice_prefer, urlRetryTaken,
                      urlRetryDelivered, audioReached, classifiable,
                      isVoiceOrigCall, isVoiceUrlCall, isAudioCall,
                      _safe_send_audio, truthyS]
              | some s =>
                  by_cases hs0 : s = ""
                  · cases au <;>
                      simp [_safe_send_voice_prefer, urlRetryTaken,
                        urlRetryDelivered, audioReached, classifiable,
                        isVoiceOrigCall, isVoiceUrlCall, isAudioCall,
                        _safe_send_audio, truthyS, hs0]
                  · cases v2 <;> cases au <;>
                      simp [_safe_send_voice_prefer, urlRetryTaken,
                        urlRetryDelivered, audioReached, classifiable,
                        isVoiceOrigCall, isVoiceUrlCall, isAudioCall,
                        _safe_send_audio, truthyS, hs0]

/-- Witness for C5: native voice send blocked, get_file resolves a path,
the URL retry fails with BadRequest, and the audio level delivers: one
call at each level, audio last, and the message is returned. -/
theorem C5_voice_fallback_witness :
    ((_safe_send_voice_prefer "tok" (.handle "fid")
        { voiceSend1 := .errBadRequest "VOICE_MESSAGES_FORBIDDEN",
          get_file := .ok (some "voice/file_7.oga"),
          voiceSend2 := .errBadRequest "wrong file", audioSend := .ok 9 }).1.countP
        isVoiceOrigCall = 1) ∧
    ((_safe_send_voice_prefer "tok" (.handle "fid")
        { voiceSend1 := .errBadRequest "VOICE_MESSAGES_FORBIDDEN",
          get_file := .ok (some "voice/file_7.oga"),
          voiceSend2 := .errBadRequest "wrong file", audioSend := .ok 9 }).1.countP
        isVoiceUrlCall = 1) ∧
    ((_safe_send_voice_prefer "tok" (.handle "fid")
        { voiceSend1 := .errBadRequest "VOICE_MESSAGES_FORBIDDEN",
          get_file := .ok (some "voice/file_7.oga"),
          voiceSend2 := .errBadRequest "wrong file", audioSend := .ok 9 }).1.getLast? =
      some VCall.send_audio_call) ∧
    ((_safe_send_voice_prefer "tok" (.handle "fid")
        { voiceSend1 := .errBadRequest "VOICE_MESSAGES_FORBIDDEN",
          get_file := .ok (some "voice/file_7.oga"),
          voiceSend2 := .errBadRequest "wrong file", audioSend := .ok 9 }).2 =
      _safe_send_audio (.ok 9)) := by
  have h := C5_voice_fallback_chain "tok" (.handle "fid")
    { voiceSend1 := .errBadRequest "VOICE_MESSAGES_FORBIDDEN",
      get_file := .ok (some "voice/file_7.oga"),
      voiceSend2 := .errBadRequest "wrong file", audioSend := .ok 9 }
  refine ⟨h.1, ?_, h.2.2.2.2.1 (by decide), h.2.2.2.2.2 (by decide)⟩
  have h3 := h.2.2.1
  rw [h3]
  decide

/-- C4: in the combo delivery job, with k configured (truthy) photo
assets among the ten slots, a grouped album send happens iff k is at
least 2, a single-photo send iff k = 1, and no photo send iff k = 0; the
same law holds for the four video slots. -/
theorem C4_grouping_threshold (e : ContentEnv) (d : JobData) (jq : Bool)
    (h : truthyInt d.chat_id = true) :
    ((_combo_delivery_beatriz_job e d jq).countP isPhotoGroupSend =
      if 2 ≤ (combo_photos e).length then 1 else 0) ∧
    ((_combo_delivery_beatriz_job e d jq).countP isSinglePhotoSend =
      if (combo_photos e).length = 1 then 1 else 0) ∧
    ((_combo_delivery_beatriz_job e d jq).countP isVideoGroupSend =
      if 2 ≤ (combo_videos e).length then 1 else 0) ∧
    ((_combo_delivery_beatriz_job e d jq).countP isSingleVideoSend =
      if (combo_videos e).length = 1 then 1 else 0) := by
  have hjob : _combo_delivery_beatriz_job e d jq =
      [BotCall.sendMessage "Hi, sorry for the delay. I'll send everything" none]
      ++ (if truthyS e.AUDIO_ENTREGA_COMBO then
            [BotCall.sendVoicePrefer (orEmpty e.AUDIO_ENTREGA_COMBO)] else [])
      ++ (if 2 ≤ (combo_photos e).length then
            [BotCall.sendMediaGroup ((combo_photos e).map InputMedia.photo)]
          else if (combo_photos e).length == 1 then
            [BotCall.sendPhoto (combo_photos e).headI]
          else [])
      ++ (if 2 ≤ (combo_videos e).length then
            [BotCall.sendMediaGroup ((combo_videos e).map InputMedia.video)]
          else if (combo_videos e).length == 1 then
            [BotCall.sendVideo (combo_videos e).headI]
          else [])
      ++ (if truthyS e.AUDIO_POS_ENTREGA_COMBO then
            [BotCall.sendVoicePrefer (orEmpty e.AUDIO_POS_ENTREGA_COMBO)]
          else
            [BotCall.sendMessage "Depois que olhar, me fala se gostou, tá bom? 🤍" none])
      ++ (if jq then
            [BotCall.scheduleUpsell VIP_OFFER_DELAY_SECONDS
              ("upsell:beatriz:" ++ toString (orZero d.chat_id)) d]
          else []) := by
    simp [_combo_delivery_beatriz_job, h]
  rw [hjob]
  rcases hps : combo_photos e with _ | ⟨p, _ | ⟨p2, ps⟩⟩ <;>
    rcases hvs : combo_videos e with _ | ⟨v, _ | ⟨v2, vs⟩⟩ <;>
      cases jq <;>
        cases hA1 : truthyS e.AUDIO_ENTREGA_COMBO <;>
          cases hA2 : truthyS e.AUDIO_POS_ENTREGA_COMBO <;>
            simp [List.countP_append, List.countP_cons, isPhotoGroupSend,
              isSinglePhotoSend, isVideoGroupSend, isSingleVideoSend,
              Nat.succ_le_succ]

/-- Witness for C4 at a concrete environment with two configured photos
and one configured video: one album send, no single photo, no video
album, one single video. -/
theorem C4_grouping_witness :
    ((_combo_delivery_beatriz_job
        { BEATRIZ_COMBO_FOTO_1 := some "f1", BEATRIZ_COMBO_FOTO_2 := some "f2",
          BEATRIZ_COMBO_FOTO_3 := none, BEATRIZ_COMBO_FOTO_4 := none,
          BEATRIZ_COMBO_FOTO_5 := none, BEATRIZ_COMBO_FOTO_6 := none,
          BEATRIZ_COMBO_FOTO_7 := none, BEATRIZ_COMBO_FOTO_8 := none,
          BEATRIZ_COMBO_FOTO_9 := none, BEATRIZ_COMBO_FOTO_10 := none,
          BEATRIZ_COMBO_VIDEO_1 := some "v1", BEATRIZ_COMBO_VIDEO_2 := none,
          BEATRIZ_COMBO_VIDEO_3 := none, BEATRIZ_COMBO_VIDEO_4 := some "",
          AUDIO_ENTREGA_COMBO := none, AUDIO_POS_ENTREGA_COMBO := none,
          AUDIO_OFERTANDO_UPSELL := none, VIDEO_PREVIA_VIP := none,
          AUDIO_REMARKETING_UPSELL := none, AUDIO_REMARKETING_UPSELL_2 := none }
        { chat_id := some 5, user_id := some 6, business_connection_id := none }
        true).countP isPhotoGroupSend = 1) ∧
    ((_combo_delivery_beatriz_job
        { BEATRIZ_COMBO_FOTO_1 := some "f1", BEATRIZ_COMBO_FOTO_2 := some "f2",
          BEATRIZ_COMBO_FOTO_3 := none, BEATRIZ_COMBO_FOTO_4 := none,
          BEATRIZ_COMBO_FOTO_5 := none, BEATRIZ_COMBO_FOTO_6 := none,
          BEATRIZ_COMBO_FOTO_7 := none, BEATRIZ_COMBO_FOTO_8 := none,
          BEATRIZ_COMBO_FOTO_9 := none, BEATRIZ_COMBO_FOTO_10 := none,
          BEATRIZ_COMBO_VIDEO_1 := some "v1", BEATRIZ_COMBO_VIDEO_2 := none,
          BEATRIZ_COMBO_VIDEO_3 := none, BEATRIZ_COMBO_VIDEO_4 := some "",
          AUDIO_ENTREGA_COMBO := none, AUDIO_POS_ENTREGA_COMBO := none,
          AUDIO_OFERTANDO_UPSELL := none, VIDEO_PREVIA_VIP := none,
          AUDIO_REMARKETING_UPSELL := none, AUDIO_REMARKETING_UPSELL_2 := none }
        { chat_id := some 5, user_id := some 6, business_connection_id := none }
        true).countP isSinglePhotoSend = 0) ∧
    ((_combo_delivery_beatriz_job
        { BEATRIZ_COMBO_FOTO_1 := some "f1", BEATRIZ_COMBO_FOTO_2 := some "f2",
          BEATRIZ_COMBO_FOTO_3 := none, BEATRIZ_COMBO_FOTO_4 := none,
          BEATRIZ_COMBO_FOTO_5 := none, BEATRIZ_COMBO_FOTO_6 := none,
          BEATRIZ_COMBO_FOTO_7 := none, BEATRIZ_COMBO_FOTO_8 := none,
          BEATRIZ_COMBO_FOTO_9 := none, BEATRIZ_COMBO_FOTO_10 := none,
          BEATRIZ_COMBO_VIDEO_1 := some "v1", BEATRIZ_COMBO_VIDEO_2 := none,
          BEATRIZ_COMBO_VIDEO_3 := none, BEATRIZ_COMBO_VIDEO_4 := some "",
          AUDIO_ENTREGA_COMBO := none, AUDIO_POS_ENTREGA_COMBO := none,
          AUDIO_OFERTANDO_UPSELL := none, VIDEO_PREVIA_VIP := none,
          AUDIO_REMARKETING_UPSELL := none, AUDIO_REMARKETING_UPSELL_2 := none }
        { chat_id := some 5, user_id := some 6, business_connection_id := none }
        true).countP isVideoGroupSend = 0) ∧
    ((_combo_delivery_beatriz_job
        { BEATRIZ_COMBO_FOTO_1 := some "f1", BEATRIZ_COMBO_FOTO_2 := some "f2",
          BEATRIZ_COMBO_FOTO_3 := none, BEATRIZ_COMBO_FOTO_4 := none,
          BEATRIZ_COMBO_FOTO_5 := none, BEATRIZ_COMBO_FOTO_6 := none,
          BEATRIZ_COMBO_FOTO_7 := none, BEATRIZ_COMBO_FOTO_8 := none,
          BEATRIZ_COMBO_FOTO_9 := none, BEATRIZ_COMBO_FOTO_10 := none,
          BEATRIZ_COMBO_VIDEO_1 := some "v1", BEATRIZ_COMBO_VIDEO_2 := none,
          BEATRIZ_COMBO_VIDEO_3 := none, BEATRIZ_COMBO_VIDEO_4 := some "",
          AUDIO_ENTREGA_COMBO := none, AUDIO_POS_ENTREGA_COMBO := none,
          AUDIO_OFERTANDO_UPSELL := none, VIDEO_PREVIA_VIP := none,
          AUDIO_REMARKETING_UPSELL := none, AUDIO_REMARKETING_UPSELL_2 := none }
        { chat_id := some 5, user_id := some 6, business_connection_id := none }
        true).countP isSingleVideoSend = 1) := by
  have h := C4_grouping_threshold
    { BEATRIZ_COMBO_FOTO_1 := some "f1", BEATRIZ_COMBO_FOTO_2 := some "f2",
      BEATRIZ_COMBO_FOTO_3 := none, BEATRIZ_COMBO_FOTO_4 := none,
      BEATRIZ_COMBO_FOTO_5 := none, BEATRIZ_COMBO_FOTO_6 := none,
      BEATRIZ_COMBO_FOTO_7 := none, BEATRIZ_COMBO_FOTO_8 := none,
      BEATRIZ_COMBO_FOTO_9 := none, BEATRIZ_COMBO_FOTO_10 := none,
      BEATRIZ_COMBO_VIDEO_1 := some "v1", BEATRIZ_COMBO_VIDEO_2 := none,
      BEATRIZ_COMBO_VIDEO_3 := none, BEATRIZ_COMBO_VIDEO_4 := some "",
      AUDIO_ENTREGA_COMBO := none, AUDIO_POS_ENTREGA_COMBO := none,
      AUDIO_OFERTANDO_UPSELL := none, VIDEO_PREVIA_VIP := none,
      AUDIO_REMARKETING_UPSELL := none, AUDIO_REMARKETING_UPSELL_2 := none }
    { chat_id := some 5, user_id := some 6, business_connection_id := none }
    true (by decide)
  obtain ⟨h1, h2, h3, h4⟩ := h
  refine ⟨?_, ?_, ?_, ?_⟩
  · rw [h1]; decide
  · rw [h2]; decide
  · rw [h3]; decide
  · rw [h4]; decide

/-- C7: the upsell job schedules the repeating membership polling job
exactly once iff a job queue is available and the payload user_id is
truthy; the upsell text and the VIP keyboard are sent in every case
(given the job runs at all, i.e. a truthy chat_id). -/
theorem C7_upsell_schedules_polling (e : ContentEnv) (d : JobData) (jq : Bool)
    (h : truthyInt d.chat_id = true) :
    ((_upsell_sequence_job e d jq).countP isGroupCheckSchedule =
      if jq && truthyInt d.user_id then 1 else 0) ∧
    (BotCall.sendMessage UPSELL_TEXT none ∈ _upsell_sequence_job e d jq) ∧
    (BotCall.sendMessage "Choose your VIP below 👇" (some vipKeyboard) ∈
      _upsell_sequence_job e d jq) := by
  cases jq <;>
    cases hu : truthyInt d.user_id <;>
      cases hA : truthyS e.AUDIO_OFERTANDO_UPSELL <;>
        cases hV : truthyS e.VIDEO_PREVIA_VIP <;>
          simp [_upsell_sequence_job, h, hu, hA, hV, List.countP_append,
            List.countP_cons, isGroupCheckSchedule]

/-- Witness for C7 at a concrete payload with a known user and a job
queue: the polling job is scheduled once and the upsell content sent. -/
theorem C7_upsell_witness :
    ((_upsell_sequence_job
        { BEATRIZ_COMBO_FOTO_1 := none, BEATRIZ_COMBO_FOTO_2 := none,
          BEATRIZ_COMBO_FOTO_3 := none, BEATRIZ_COMBO_FOTO_4 := none,
          BEATRIZ_COMBO_FOTO_5 := none, BEATRIZ_COMBO_FOTO_6 := none,
          BEATRIZ_COMBO_FOTO_7 := none, BEATRIZ_COMBO_FOTO_8 := none,
          BEATRIZ_COMBO_FOTO_9 := none, BEATRIZ_COMBO_FOTO_10 := none,
          BEATRIZ_COMBO_VIDEO_1 := none, BEATRIZ_COMBO_VIDEO_2 := none,
          BEATRIZ_COMBO_VIDEO_3 := none, BEATRIZ_COMBO_VIDEO_4 := none,
          AUDIO_ENTREGA_COMBO := none, AUDIO_POS_ENTREGA_COMBO := none,
          AUDIO_OFERTANDO_UPSELL := none, VIDEO_PREVIA_VIP := none,
          AUDIO_REMARKETING_UPSELL := none, AUDIO_REMARKETING_UPSELL_2 := none }
        { chat_id := some 5, user_id := some 6, business_connection_id := none }
        true).countP isGroupCheckSchedule = 1) ∧
    (BotCall.sendMessage "Choose your VIP below 👇" (some vipKeyboard) ∈
      _upsell_sequence_job
        { BEATRIZ_COMBO_FOTO_1 := none, BEATRIZ_COMBO_FOTO_2 := none,
          BEATRIZ_COMBO_FOTO_3 := none, BEATRIZ_COMBO_FOTO_4 := none,
          BEATRIZ_COMBO_FOTO_5 := none, BEATRIZ_COMBO_FOTO_6 := none,
          BEATRIZ_COMBO_FOTO_7 := none, BEATRIZ_COMBO_FOTO_8 := none,
          BEATRIZ_COMBO_FOTO_9 := none, BEATRIZ_COMBO_FOTO_10 := none,
          BEATRIZ_COMBO_VIDEO_1 := none, BEATRIZ_COMBO_VIDEO_2 := none,
          BEATRIZ_COMBO_VIDEO_3 := none, BEATRIZ_COMBO_VIDEO_4 := none,
          AUDIO_ENTREGA_COMBO := none, AUDIO_POS_ENTREGA_COMBO := none,
          AUDIO_OFERTANDO_UPSELL := none, VIDEO_PREVIA_VIP := none,
          AUDIO_REMARKETING_UPSELL := none, AUDIO_REMARKETING_UPSELL_2 := none }
        { chat_id := some 5, user_id := some 6, business_connection_id := none }
        true) := by
  have h := C7_upsell_schedules_polling
    { BEATRIZ_COMBO_FOTO_1 := none, BEATRIZ_COMBO_FOTO_2 := none,
      BEATRIZ_COMBO_FOTO_3 := none, BEATRIZ_COMBO_FOTO_4 := none,
      BEATRIZ_COMBO_FOTO_5 := none, BEATRIZ_COMBO_FOTO_6 := none,
      BEATRIZ_COMBO_FOTO_7 := none, BEATRIZ_COMBO_FOTO_8 := none,
      BEATRIZ_COMBO_FOTO_9 := none, BEATRIZ_COMBO_FOTO_10 := none,
      BEATRIZ_COMBO_VIDEO_1 := none, BEATRIZ_COMBO_VIDEO_2 := none,
      BEATRIZ_COMBO_VIDEO_3 := none, BEATRIZ_COMBO_VIDEO_4 := none,
      AUDIO_ENTREGA_COMBO := none, AUDIO_POS_ENTREGA_COMBO := none,
      AUDIO_OFERTANDO_UPSELL := none, VIDEO_PREVIA_VIP := none,
      AUDIO_REMARKETING_UPSELL := none, AUDIO_REMARKETING_UPSELL_2 := none }
    { chat_id := some 5, user_id := some 6, business_connection_id := none }
    true (by decide)
  refine ⟨?_, h.2.2⟩
  rw [h.1]
  decide

/-- Bounded-run lemma: starting from a well-formed payload with attempt
at most 4, if no query raises Forbidden then the observed run is at most
5 - attempt invocations long, every invocation performs a query with a
counter between attempt+1 and 5, and with enough fuel the run ends in a
self-removal. -/
theorem gcAux_bounded (oracle : Nat → MemberOutcome)
    (hforb : ∀ j, oracle j ≠ .forbidden) :
    ∀ (fuel i : Nat) (d : GCData), gcGood d = true → d.attempt ≤ 4 →
      (gcTraceAux oracle d i fuel).length + d.attempt ≤ 5 ∧
      (∀ r ∈ gcTraceAux oracle d i fuel,
        d.attempt + 1 ≤ r.data.attempt ∧ r.data.attempt ≤ 5 ∧ r.checked = true) ∧
      (5 - d.attempt ≤ fuel →
        (gcTraceAux oracle d i fuel).any (fun r => r.removed) = true) := by
  intro fuel
  induction fuel with
  | zero =>
      intro i d hg ha
      refine ⟨by simpa [gcTraceAux] using by omega, by simp [gcTraceAux], ?_⟩
      intro hle
      omega
  | succ fuel ih =>
      intro i d hg ha
      have hdata := gc_data_eq d (oracle i)
      have hattempt : (_group_check_job d (oracle i)).data.attempt = d.attempt + 1 := by
        rw [hdata]
      have hgood2 : gcGood (_group_check_job d (oracle i)).data = true := by
        rw [gc_good_preserved]; exact hg
      have hchk := gc_checked d (oracle i) hg
      by_cases hrem : (_group_check_job d (oracle i)).removed = true
      · have htr : gcTraceAux oracle d i (fuel + 1) = [_group_check_job d (oracle i)] := by
          simp [gcTraceAux, hrem]
        rw [htr]
        refine ⟨by simp; omega, ?_, by simp [hrem]⟩
        intro r hr
        rcases List.mem_singleton.mp hr with rfl
        exact ⟨by omega, by rw [hattempt]; omega, hchk⟩
      · have hrem' : (_group_check_job d (oracle i)).removed = false := by
          simpa using hrem
        have hbound := gc_not_removed_bound d (oracle i) hg (hforb i) hrem'
        have htr : gcTraceAux oracle d i (fuel + 1) =
            _group_check_job d (oracle i) ::
              gcTraceAux oracle (_group_check_job d (oracle i)).data (i + 1) fuel := by
          simp [gcTraceAux, hrem']
        obtain ⟨l1, l2, l3⟩ := ih (i + 1) (_group_check_job d (oracle i)).data hgood2
          (by omega)
        rw [htr]
        refine ⟨?_, ?_, ?_⟩
        · simp only [List.length_cons]
          rw [hattempt] at l1
          omega
        · intro r hr
          rcases List.mem_cons.mp hr with rfl | hr2
          · exact ⟨by omega, by rw [hattempt]; omega, hchk⟩
          · obtain ⟨b1, b2, b3⟩ := l2 r hr2
            rw [hattempt] at b1
            exact ⟨by omega, b2, b3⟩
        · intro hfuel
          have : (gcTraceAux oracle (_group_check_job d (oracle i)).data (i + 1)
              fuel).any (fun r => r.removed) = true := by
            apply l3
            rw [hattempt]
            omega
          simp [List.any_cons, this]

/-- C2 counterexample: with a well-formed payload and a gateway whose
membership query raises Forbidden on every invocation, six observed
invocations all perform a membership query (a 6th check happens) and none
removes the job, so the loop is not bounded by MAX_ATTEMPTS checks
regardless of outcome, contradicting the claim as stated. -/
theorem C2_counterexample_forbidden_unbounded :
    (gcTrace (fun _ => MemberOutcome.forbidden)
        { chat_id := some 1, user_id := some 2,
          business_connection_id := none, attempt := 0 } 6).countP
        (fun r => r.checked) = 6 ∧
    (gcTrace (fun _ => MemberOutcome.forbidden)
        { chat_id := some 1, user_id := some 2,
          business_connection_id := none, attempt := 0 } 6).all
        (fun r => !r.removed) = true := by
  decide

/-- C2 amended: provided no membership query raises an authorization
(Forbidden) failure, the polling run from a fresh well-formed payload
performs at most MAX_ATTEMPTS (5) membership checks, every invocation
satisfies 1 ≤ attempt ≤ MAX_ATTEMPTS, and given at least MAX_ATTEMPTS
scheduler firings the job has self-removed (on or before the invocation
where attempt reaches MAX_ATTEMPTS without membership being
confirmed). -/
theorem C2_bounded_polling_no_forbidden (oracle : Nat → MemberOutcome)
    (d : GCData) (fuel : Nat)
    (hg : gcGood d = true) (h0 : d.attempt = 0)
    (hforb : ∀ j, oracle j ≠ .forbidden) :
    (gcTrace oracle d fuel).countP (fun r => r.checked) ≤
      GROUP_CHECK_MAX_ATTEMPTS ∧
    (gcTrace oracle d fuel).all
      (fun r => decide (1 ≤ r.data.attempt) &&
        decide (r.data.attempt ≤ GROUP_CHECK_MAX_ATTEMPTS) && r.checked) = true ∧
    (GROUP_CHECK_MAX_ATTEMPTS ≤ fuel →
      (gcTrace oracle d fuel).any (fun r => r.removed) = true) := by
  obtain ⟨l1, l2, l3⟩ := gcAux_bounded oracle hforb fuel 0 d hg (by omega)
  refine ⟨?_, ?_, ?_⟩
  · calc (gcTrace oracle d fuel).countP (fun r => r.checked)
        ≤ (gcTrace oracle d fuel).length := List.countP_le_length _
      _ ≤ 5 := by have := l1; rw [h0] at this; simpa [gcTrace] using this
  · rw [List.all_eq_true]
    intro r hr
    obtain ⟨b1, b2, b3⟩ := l2 r (by simpa [gcTrace] using hr)
    simp only [Bool.and_eq_true, decide_eq_true_eq]
    exact ⟨⟨by omega, by simpa [GROUP_CHECK_MAX_ATTEMPTS] using b2⟩, b3⟩
  · intro hfuel
    apply l3
    rw [h0]
    simpa [GROUP_CHECK_MAX_ATTEMPTS] using hfuel

/-- Witness for the amended C2 at a concrete run: five not-member rounds,
at most five checks, all attempts within bounds, and the job removed. -/
theorem C2_bounded_polling_witness :
    (gcTrace (fun _ => MemberOutcome.badRequest)
        { chat_id := some 1, user_id := some 2,
          business_connection_id := none, attempt := 0 } 5).countP
        (fun r => r.checked) ≤ GROUP_CHECK_MAX_ATTEMPTS ∧
    (gcTrace (fun _ => MemberOutcome.badRequest)
        { chat_id := some 1, user_id := some 2,
          business_connection_id := none, attempt := 0 } 5).all
        (fun r => decide (1 ≤ r.data.attempt) &&
          decide (r.data.attempt ≤ GROUP_CHECK_MAX_ATTEMPTS) && r.checked) = true ∧
    (gcTrace (fun _ => MemberOutcome.badRequest)
        { chat_id := some 1, user_id := some 2,
          business_connection_id := none, attempt := 0 } 5).any
        (fun r => r.removed) = true := by
  have h := C2_bounded_polling_no_forbidden (fun _ => MemberOutcome.badRequest)
    { chat_id := some 1, user_id := some 2,
      business_connection_id := none, attempt := 0 } 5 (by decide) rfl
    (fun _ h => MemberOutcome.noConfusion h)
  exact ⟨h.1, h.2.1, h.2.2 (by decide)⟩

/-- An admissible message for an already-dispatched chat is a no-op: the
state is unchanged and no action (in particular no scheduling) happens. -/
theorem handle_dispatched_noop (st : BotState) (u : TUpdate) (c : Int)
    (jq : Bool) (hg : goodPrivateMsg u c = true)
    (hd : dispatchedB st c = true) :
    handle_text_message st u jq = (st, []) := by
  rcases hm : u.message with _ | msg
  · simp [goodPrivateMsg, hm] at hg
  rcases hc : u.chat with _ | chat
  · simp [goodPrivateMsg, hm, hc] at hg
  simp only [goodPrivateMsg, hm, hc, Bool.and_eq_true, beq_iff_eq] at hg
  obtain ⟨⟨hbot, hpriv⟩, hid⟩ := hg
  have hd' : st.chat_data_dispatched c = true ∨
      c ∈ st.combo_dispatched_chats := by
    have : (st.chat_data_dispatched c ||
        st.combo_dispatched_chats.contains c) = true := hd
    simpa using this
  cases hfu : msg.from_user with
  | none =>
      rcases hd' with hd1 | hd1 <;>
        simp [handle_text_message, hm, hc, hfu, hpriv, hid, hd1]
  | some fu =>
      rw [hfu] at hbot
      simp only [Bool.not_eq_true'] at hbot
      rcases hd' with hd1 | hd1 <;>
        simp [handle_text_message, hm, hc, hfu, hbot, hpriv, hid, hd1]

/-- An admissible message for a not-yet-dispatched chat sets the dispatch
flag (in both stores), schedules the combo job exactly once when a job
queue is available, and with no job queue performs only the inline sleep
and apology reply. -/
theorem handle_fresh_admits (st : BotState) (u : TUpdate) (c : Int)
    (jq : Bool) (hg : goodPrivateMsg u c = true)
    (hf : dispatchedB st c = false) :
    dispatchedB (handle_text_message st u jq).1 c = true ∧
    (handle_text_message st u jq).2.countP isComboSchedule =
      (if jq then 1 else 0) ∧
    (jq = false → (handle_text_message st u jq).2 =
      [HAction.sleep AUTO_REPLY_DELAY_SECONDS,
       HAction.replyText "Hi, sorry for the delay. I'll send everything."]) := by
  rcases hm : u.message with _ | msg
  · simp [goodPrivateMsg, hm] at hg
  rcases hc : u.chat with _ | chat
  · simp [goodPrivateMsg, hm, hc] at hg
  simp only [goodPrivateMsg, hm, hc, Bool.and_eq_true, beq_iff_eq] at hg
  obtain ⟨⟨hbot, hpriv⟩, hid⟩ := hg
  have hf1 : st.chat_data_dispatched c = false := by
    have : (st.chat_data_dispatched c ||
        st.combo_dispatched_chats.contains c) = false := hf
    simp at this
    exact this.1
  have hf2 : c ∉ st.combo_dispatched_chats := by
    have : (st.chat_data_dispatched c ||
        st.combo_dispatched_chats.contains c) = false := hf
    simp at this
    exact this.2
  cases hfu : msg.from_user with
  | none =>
      cases jq <;> cases hb : truthyS msg.business_connection_id <;>
        simp [handle_text_message, hm, hc, hfu, hpriv, hid, hf1, hf2, hb,
          dispatchedB, isComboSchedule]
  | some fu =>
      rw [hfu] at hbot
      simp only [Bool.not_eq_true'] at hbot
      cases jq <;> cases hb : truthyS msg.business_connection_id <;>
        simp [handle_text_message, hm, hc, hfu, hbot, hpriv, hid, hf1, hf2, hb,
          dispatchedB, isComboSchedule]

/-- Once a chat is dispatched, any further sequence of admissible
messages for it leaves the state unchanged and produces no actions. -/
theorem run_dispatched_noop (c : Int) :
    ∀ (us : List (TUpdate × Bool)) (st : BotState),
      dispatchedB st c = true →
      (∀ p ∈ us, goodPrivateMsg p.1 c = true) →
      runHandler st us = (st, []) := by
  intro us
  induction us with
  | nil => intro st _ _; rfl
  | cons p rest ih =>
      intro st hd hall
      obtain ⟨u, jq⟩ := p
      have h1 : handle_text_message st u jq = (st, []) :=
        handle_dispatched_noop st u c jq (hall (u, jq) (by simp)) hd
      have h2 : runHandler st rest = (st, []) :=
        ih st hd (fun q hq => hall q (by simp [hq]))
      simp [runHandler, h1, h2]

/-- C1: for any nonempty sequence of inbound private-chat messages from
the same chat by a non-bot sender, processed with a job queue available
and starting from a state in which the chat is not yet dispatched, the
combo delivery job is scheduled exactly once: the first message sets the
dispatch flag and schedules, every later message finds the flag set and
schedules nothing. -/
theorem C1_combo_scheduled_once (c : Int) (st0 : BotState)
    (us : List TUpdate) (hne : us ≠ [])
    (hall : ∀ u ∈ us, goodPrivateMsg u c = true)
    (hfresh : dispatchedB st0 c = false) :
    (runHandler st0 (us.map (fun u => (u, true)))).2.countP isComboSchedule
      = 1 := by
  rcases us with _ | ⟨u, rest⟩
  · exact absurd rfl hne
  have h1 := handle_fresh_admits st0 u c true (hall u (by simp)) hfresh
  have h2 : runHandler (handle_text_message st0 u true).1
      (rest.map fun v => (v, true)) = ((handle_text_message st0 u true).1, []) :=
    run_dispatched_noop c (rest.map fun v => (v, true))
      (handle_text_message st0 u true).1 h1.1
      (by
        intro p hp
        obtain ⟨v, hv, rfl⟩ := List.mem_map.mp hp
        exact hall v (by simp [hv]))
  have h3 : (handle_text_message st0 u true).2.countP isComboSchedule = 1 := by
    simpa using h1.2.1
  simp [runHandler, List.map_cons, h2, List.countP_append, h3]

/-- Witness for C1: two consecutive messages in chat 5 from a fresh state
produce exactly one combo-job scheduling. -/
theorem C1_combo_scheduled_once_witness :
    (runHandler exampleState
        ([exampleUpdate, exampleUpdate2].map (fun u => (u, true)))).2.countP
      isComboSchedule = 1 :=
  C1_combo_scheduled_once 5 exampleState [exampleUpdate, exampleUpdate2]
    (by decide) (by decide) (by decide)

/-- C9: when the handler admits a conversation but no job queue is
available, it consumes the dispatch flag anyway, performs only the inline
sleep of AUTO_REPLY_DELAY_SECONDS and the single apology reply, schedules
nothing, and the conversation can never be re-triggered: any later
admissible messages (job queue or not) schedule nothing either. -/
theorem C9_no_jobqueue_funnel_dead (st : BotState) (u : TUpdate) (c : Int)
    (us : List (TUpdate × Bool))
    (hg : goodPrivateMsg u c = true) (hf : dispatchedB st c = false)
    (hall : ∀ p ∈ us, goodPrivateMsg p.1 c = true) :
    (handle_text_message st u false).2 =
      [HAction.sleep AUTO_REPLY_DELAY_SECONDS,
       HAction.replyText "Hi, sorry for the delay. I'll send everything."] ∧
    dispatchedB (handle_text_message st u false).1 c = true ∧
    (runHandler (handle_text_message st u false).1 us).2.countP
      isComboSchedule = 0 := by
  have h1 := handle_fresh_admits st u c false hg hf
  have h2 : runHandler (handle_text_message st u false).1 us =
      ((handle_text_message st u false).1, []) :=
    run_dispatched_noop c us (handle_text_message st u false).1 h1.1 hall
  exact ⟨h1.2.2 rfl, h1.1, by simp [h2]⟩

/-- Witness for C9: the concrete chat-5 message with no job queue yields
only the inline sleep and apology, sets the flag, and a later message
with a job queue available schedules nothing. -/
theorem C9_no_jobqueue_witness :
    (handle_text_message exampleState exampleUpdate false).2 =
      [HAction.sleep AUTO_REPLY_DELAY_SECONDS,
       HAction.replyText "Hi, sorry for the delay. I'll send everything."] ∧
    dispatchedB (handle_text_message exampleState exampleUpdate false).1 5 = true ∧
    (runHandler (handle_text_message exampleState exampleUpdate false).1
        [(exampleUpdate2, true)]).2.countP isComboSchedule = 0 :=
  C9_no_jobqueue_funnel_dead exampleState exampleUpdate 5
    [(exampleUpdate2, true)] (by decide) (by decide) (by decide)



